import Mathlib

/-!
Verification of the metrics-derivation core of the RHMR repository
(the files `scripts/calculate_metrics.py` and `scripts/generate_insights.py`).

Modelling conventions:
* Python floats are modelled as exact rationals (`ℚ`).  Every concrete value
  appearing in the claims was checked to be unaffected by double-precision
  rounding.
* Python `round(x, n)` is modelled as round-half-to-even at `n` decimal
  digits, Python's documented rounding mode (the corner cases where the binary
  representation of a float shifts an exact decimal half are not relevant to
  any claim).
* Python `int(x)` truncates toward zero; it is modelled by `pyInt`.
* Python `float(s)` on a CSV cell is modelled by `pyFloat?`, a parser for
  optionally signed decimal literals, the only shape occurring in the ZHVI
  data; a malformed cell makes the row computation fail, exactly as the
  unguarded `float()` call raises `ValueError`.
* Python `str.isdigit` is modelled for ASCII digits, the alphabet of the CSV
  headers; Python string comparison (used by `list.sort`) is lexicographic on
  code points, as is Lean's `String` order.
* File and date I/O stay outside the model: the parsed CSV content is passed
  in as an optional list of rows (`none` when no CSV file was found on disk)
  and `date.today()` is passed as the `today` string argument.
* A Python float division by zero raises `ZeroDivisionError`; fallible steps
  are therefore modelled in the `Except String` monad.
-/

attribute [local semireducible] Rat.mul Rat.add Rat.sub Rat.inv

namespace RHMR

/-- Round-half-to-even to an integer, the rounding used by Python `round`. -/
def roundHalfEven (q : ℚ) : ℤ :=
  let f := q.floor
  let r := q - (f : ℚ)
  if r < 1/2 then f
  else if 1/2 < r then f + 1
  else if f % 2 = 0 then f else f + 1

/-- Python `round(x, 2)` on rationals. -/
def round2 (q : ℚ) : ℚ := (roundHalfEven (q * 100) : ℚ) / 100

/-- Python `round(x, 1)` on rationals. -/
def round1 (q : ℚ) : ℚ := (roundHalfEven (q * 10) : ℚ) / 10

/-- Python `int(x)`: truncation toward zero. -/
def pyInt (q : ℚ) : ℤ := if q < 0 then -(-q).floor else q.floor

/-- Line 59 of `calculate_metrics.py`:
`price_change_pct = round((latest - previous) / previous * 100, 2)`. -/
def changePct (latest previous : ℚ) : ℚ :=
  round2 ((latest - previous) / previous * 100)

/-- Line 60 of `calculate_metrics.py`:
`trend = "heating" if price_change_pct > 0 else "cooling"`. -/
def classifyTrend (pct : ℚ) : String :=
  if pct > 0 then "heating" else "cooling"

/-- The `inventory` block of the `market` record. -/
structure Inventory where
  active : ℤ
  change_pct : ℚ
deriving DecidableEq

/-- The `pricing` block of the `market` record. -/
structure Pricing where
  median_list : ℤ
  median_sale : ℤ
  spread_pct : ℚ
  trend : String
deriving DecidableEq

/-- The `velocity` block of the `market` record. -/
structure Velocity where
  avg_dom : ℤ
  dom_change : ℤ
  absorption_rate : ℚ
  months_supply : ℚ
deriving DecidableEq

/-- The `signals` block of the `market` record. -/
structure Signals where
  seller_leverage : String
  price_reductions_up : Bool
  inventory_rising : Bool
deriving DecidableEq

/-- The `market` record written to `market.json` by `calculate_metrics.py`. -/
structure Snapshot where
  market : String
  zip : String
  city : String
  updated : String
  period : String
  inventory : Inventory
  pricing : Pricing
  velocity : Velocity
  signals : Signals
  history : List ℚ
deriving DecidableEq

/-- Lines 65-95 of `calculate_metrics.py`: the `market` dictionary built from
the classified trend, the change percentage, the latest value and the series.
Decimal constants are written as exact fractions: `0.1 = 1/10`,
`0.97 = 97/100`, `-3.0 = -3`, `0.75 = 3/4`, `1.1 = 11/10`, `4.2 = 21/5`,
`2.8 = 14/5`, `2.5 = 5/2`. -/
def buildSnapshot (zip today : String) (values : List ℚ) (latest pct : ℚ)
    (trend : String) : Snapshot where
  market := "Houston County, GA"
  zip := zip
  city := "Warner Robins"
  updated := today
  period := "monthly"
  inventory :=
    { active := max 1 (pyInt (100 / max |pct| (1/10)))
      change_pct := round1 (pct * -1) }
  pricing :=
    { median_list := pyInt latest
      median_sale := pyInt (latest * (97/100))
      spread_pct := -3
      trend := trend }
  velocity :=
    { avg_dom := if trend = "cooling" then 30 else 22
      dom_change := if trend = "cooling" then 3 else -2
      absorption_rate := if trend = "cooling" then 3/4 else 11/10
      months_supply := if trend = "cooling" then 21/5 else 14/5 }
  signals :=
    { seller_leverage := if trend = "cooling" then "buyer" else "seller"
      price_reductions_up := trend == "cooling"
      inventory_rising := trend == "cooling" }
  history := values

/-- Lines 109-139 of `calculate_metrics.py`: the hard-coded default record
written when the CSV file is absent or holds no row for the requested ZIP. -/
def defaultSnapshot (zip today : String) : Snapshot where
  market := "Houston County, GA"
  zip := zip
  city := "Warner Robins"
  updated := today
  period := "monthly"
  inventory := { active := 105, change_pct := 5/2 }
  pricing :=
    { median_list := 289500, median_sale := 281000, spread_pct := -3
      trend := "heating" }
  velocity :=
    { avg_dom := 28, dom_change := -2, absorption_rate := 11/10
      months_supply := 14/5 }
  signals :=
    { seller_leverage := "seller", price_reductions_up := false
      inventory_rising := false }
  history := [285000, 287500, 289500, 291000]

/-- Line 53 of `calculate_metrics.py`: the fallback series substituted when
fewer than two numeric values were extracted. -/
def fallbackValues : List ℚ := [280000, 282000, 285000, 289500]

/-- A CSV row as produced by `csv.DictReader`: an association list from column
label to cell string, in header order, with distinct keys. -/
abbrev Row := List (String × String)

/-- Python `row[c]` (keys queried by the script are always present). -/
def getCell (row : Row) (c : String) : String := ((row.lookup c).getD "")

/-- Python `str.isdigit` on a list of characters: non-empty and all digits. -/
def pyIsDigit (cs : List Char) : Bool := !cs.isEmpty && cs.all Char.isDigit

/-- Line 46 of `calculate_metrics.py`: the key filter `c[:4].isdigit()`. -/
def isPeriodKey (c : String) : Bool := pyIsDigit (c.toList.take 4)

/-- Lexicographic strict order on lists of characters by code point, the
comparison Python uses on strings. -/
def charListLt : List Char → List Char → Bool
  | [], [] => false
  | [], _ :: _ => true
  | _ :: _, [] => false
  | a :: as, b :: bs =>
    if a.toNat < b.toNat then true
    else if b.toNat < a.toNat then false
    else charListLt as bs

/-- Python string comparison: lexicographic on code points. -/
def keyLt (a b : String) : Bool := charListLt a.toList b.toList

/-- Insert a string into a sorted list of strings, keeping it sorted. -/
def insertKey (s : String) : List String → List String
  | [] => [s]
  | t :: ts => if keyLt s t then s :: t :: ts else t :: insertKey s ts

/-- Line 47 of `calculate_metrics.py`: `date_columns.sort()` — ascending
lexicographic sort, modelled by insertion sort. -/
def sortKeys : List String → List String
  | [] => []
  | s :: ts => insertKey s (sortKeys ts)

/-- Python `l[-n:]`: the last `n` elements (all of them when fewer). -/
def lastN (n : ℕ) (l : List String) : List String := l.drop (l.length - n)

/-- Numeric value of a list of ASCII digits. -/
def digitsVal (cs : List Char) : ℕ :=
  cs.foldl (fun n c => 10 * n + (c.toNat - 48)) 0

/-- Parser for an unsigned decimal literal: digits, optionally followed by a
dot and further digits, with at least one digit present. -/
def parseUnsigned? (cs : List Char) : Option ℚ :=
  let ip := cs.takeWhile Char.isDigit
  let rest := cs.drop ip.length
  match rest with
  | [] => if ip.isEmpty then none else some (digitsVal ip : ℚ)
  | '.' :: fr =>
    let fp := fr.takeWhile Char.isDigit
    let rest2 := fr.drop fp.length
    if rest2.isEmpty && !(ip.isEmpty && fp.isEmpty) then
      some ((digitsVal ip : ℚ) + (digitsVal fp : ℚ) / (10 ^ fp.length : ℚ))
    else none
  | _ => none

/-- Python `float(s)` on the decimal literals occurring in ZHVI cells;
`none` models the `ValueError` raised on a malformed cell. -/
def pyFloat? (s : String) : Option ℚ :=
  match s.toList with
  | '-' :: cs => (parseUnsigned? cs).map (fun q => -q)
  | '+' :: cs => parseUnsigned? cs
  | cs => parseUnsigned? cs

/-- Lines 46-48 of `calculate_metrics.py`: the period columns — keys passing
the digit heuristic, sorted ascending, last four taken. -/
def periodColumns (row : Row) : List String :=
  lastN 4 (sortKeys ((row.map Prod.fst).filter isPeriodKey))

/-- Convert a list of cells with `float`, propagating a `ValueError`. -/
def parseCells (row : Row) : List String → Option (List ℚ)
  | [] => some []
  | c :: cs =>
    match pyFloat? (getCell row c), parseCells row cs with
    | some q, some qs => some (q :: qs)
    | _, _ => none

/-- Line 49 of `calculate_metrics.py`:
`values = [float(row[c]) for c in last_periods if row[c]]` — the Series
Extractor.  Empty cells are skipped by the truthiness test `if row[c]`. -/
def extractValues (row : Row) : Option (List ℚ) :=
  parseCells row ((periodColumns row).filter (fun c => !(getCell row c).isEmpty))

/-- Lines 51-95 of `calculate_metrics.py`: from the extracted series to the
assembled snapshot.  A series with fewer than two values is replaced by
`fallbackValues`; the division on line 59 raises `ZeroDivisionError` when the
second-to-last value is zero. -/
def computeFromValues (zip today : String) (extracted : List ℚ) :
    Except String Snapshot :=
  let values := if extracted.length < 2 then fallbackValues else extracted
  match values.reverse with
  | latest :: previous :: _ =>
    if previous = 0 then
      Except.error "ZeroDivisionError: float division by zero"
    else
      let pct := changePct latest previous
      Except.ok (buildSnapshot zip today values latest pct (classifyTrend pct))
  | _ => Except.error "IndexError: list index out of range"

/-- The per-row computation: extract the series (a malformed numeric cell
raises `ValueError`) and assemble the snapshot. -/
def computeFromRow (zip today : String) (row : Row) : Except String Snapshot :=
  match extractValues row with
  | none => Except.error "ValueError: could not convert string to float"
  | some vs => computeFromValues zip today vs

/-- Line 39 of `calculate_metrics.py`: `row.get("RegionName") == ZIP`. -/
def rowMatches (zip : String) (row : Row) : Bool :=
  row.lookup "RegionName" == some zip

/-- The function `calculate_metrics` of `calculate_metrics.py`: `csv` is
`none` when no CSV file was found; the first row matching the ZIP is used;
with no CSV or no matching row the hard-coded default record is written. -/
def calculate_metrics (csv : Option (List Row)) (zip today : String) :
    Except String Snapshot :=
  match csv with
  | none => Except.ok (defaultSnapshot zip today)
  | some rows =>
    match rows.filter (fun r => rowMatches zip r) with
    | [] => Except.ok (defaultSnapshot zip today)
    | row :: _ => computeFromRow zip today row

/-- Lines 11-40 of `generate_insights.py`: the list of insight strings chosen
by the threshold rules. -/
def insightPoints (m : Snapshot) : List String :=
  (if m.inventory.change_pct > 3 then
    ["Inventory increased notably this period, giving buyers more options."]
   else if m.inventory.change_pct < -3 then
    ["Inventory dropped significantly, giving sellers more leverage."]
   else
    ["Inventory is stable compared to last period."])
  ++ (if m.pricing.trend = "heating" then
    ["Home prices are trending upward; sellers may get top dollar."]
   else
    ["Home prices are trending downward; buyers have more negotiating power."])
  ++ (if m.velocity.dom_change > 2 then
    ["Homes are taking longer to sell than last period, watch pricing closely."]
   else if m.velocity.dom_change < -2 then
    ["Homes are selling faster than last period, a competitive market for buyers."]
   else [])
  ++ (if m.signals.price_reductions_up then
    ["Price reductions are increasing, indicating seller flexibility."]
   else [])
  ++ (if m.signals.inventory_rising then
    ["Inventory is rising, increasing options for buyers."]
   else [])

/-- The JSON object after `generate_insights.py` ran: the loaded snapshot with
the key `weekly_insights` added. -/
structure AnnotatedSnapshot where
  toSnapshot : Snapshot
  weekly_insights : List String
deriving DecidableEq

/-- The whole of `generate_insights.py`: load the snapshot, append the insight
list, write everything else back unchanged. -/
def generate_insights (m : Snapshot) : AnnotatedSnapshot :=
  { toSnapshot := m, weekly_insights := insightPoints m }

/-- The spec's description of the period-label heuristic, following §4.1 of
the spec: the first (at most) four characters exist and are all digits. -/
def specIsPeriodLabel (c : String) : Bool :=
  !(c.toList.take 4).isEmpty && (c.toList.take 4).all Char.isDigit

/-- Modelled from the spec's words in §4.1 (refinement reference for the
Series Extractor): (a) filter keys that look like period labels, (b) sort
labels ascending, (c) take the last four, (d) convert non-empty cells to
numbers, skipping empty cells. -/
def specExtract (row : Row) : Option (List ℚ) :=
  let labels := (row.map Prod.fst).filter specIsPeriodLabel
  let chosen := lastN 4 (sortKeys labels)
  parseCells row (chosen.filter (fun c => !(getCell row c).isEmpty))

/-- The concrete input row of the end-to-end example in §8 of the spec. -/
def exampleRow : Row :=
  [("2024-01", "280000"), ("2024-02", "282000"),
   ("2024-03", "285000"), ("2024-04", "289500")]

/-- The executable floor from Batteries agrees with the mathematical floor. -/
theorem ratFloor_eq_intFloor (q : ℚ) : q.floor = ⌊q⌋ := by
  rw [Rat.floor_def', Rat.floor_def]

/-- Python truncation agrees with the mathematical floor on non-negative
arguments. -/
theorem pyInt_eq_floor_of_nonneg (q : ℚ) (h : 0 ≤ q) : pyInt q = ⌊q⌋ := by
  rw [pyInt, if_neg (not_lt.mpr h), ratFloor_eq_intFloor]

/-- C1: for every pair (latest, previous) with previous non-zero reaching the
Trend Classifier, the trend is "heating" iff change_pct > 0, a zero change_pct
classifies as "cooling", and "neutral" is never produced. -/
theorem trend_classifier_heating_iff (latest previous : ℚ) (h : previous ≠ 0) :
    (classifyTrend (changePct latest previous) = "heating"
      ↔ 0 < changePct latest previous)
    ∧ (changePct latest previous = 0
      → classifyTrend (changePct latest previous) = "cooling")
    ∧ classifyTrend (changePct latest previous) ≠ "neutral" := by
  unfold classifyTrend
  by_cases hpos : changePct latest previous > 0
  · rw [if_pos hpos]
    exact ⟨⟨fun _ => hpos, fun _ => rfl⟩,
      fun h0 => absurd hpos (by rw [h0]; exact lt_irrefl 0), by decide⟩
  · rw [if_neg hpos]
    exact ⟨⟨fun hc => absurd hc (by decide), fun hlt => absurd hlt hpos⟩,
      fun _ => rfl, by decide⟩

/-- Witness for C1 at latest = previous = 1 (change_pct = 0, trend cooling). -/
theorem trend_classifier_heating_iff_witness :
    (1:ℚ) ≠ 0
    ∧ ((classifyTrend (changePct 1 1) = "heating" ↔ 0 < changePct 1 1)
      ∧ (changePct 1 1 = 0 → classifyTrend (changePct 1 1) = "cooling")
      ∧ classifyTrend (changePct 1 1) ≠ "neutral") :=
  ⟨by decide, trend_classifier_heating_iff 1 1 (by decide)⟩

/-- C3: the snapshot's inventory.active equals
max(1, floor(100 / max(abs(change_pct), 0.1))) for every change_pct, and is
always at least 1. -/
theorem inventory_active_formula (zip today : String) (values : List ℚ)
    (latest pct : ℚ) (trend : String) :
    (buildSnapshot zip today values latest pct trend).inventory.active
      = max 1 ⌊(100:ℚ) / max |pct| (1/10)⌋
    ∧ 1 ≤ (buildSnapshot zip today values latest pct trend).inventory.active := by
  have hq : (0:ℚ) ≤ 100 / max |pct| (1/10) :=
    le_of_lt (div_pos (by norm_num)
      (lt_of_lt_of_le (by norm_num) (le_max_right _ _)))
  constructor
  · show max 1 (pyInt (100 / max |pct| (1/10))) = _
    rw [pyInt_eq_floor_of_nonneg _ hq]
  · exact le_max_left _ _

/-- C6: the change_pct division has no clamped denominator: on any series
whose second-to-last value is zero, the computation raises a division fault
instead of returning a snapshot. -/
theorem zero_previous_division_error (zip today : String) (l : List ℚ)
    (latest : ℚ) :
    computeFromValues zip today (l ++ [0, latest])
      = Except.error "ZeroDivisionError: float division by zero" := by
  have hlen : ¬ (l ++ [0, latest]).length < 2 := by
    simp [List.length_append]
  have hrev : (l ++ [(0:ℚ), latest]).reverse = latest :: 0 :: l.reverse := by
    simp
  simp only [computeFromValues, if_neg hlen, hrev]
  simp

/-- C7: the end-to-end example of §8: on the documented input row the pipeline
computes change_pct = 1.58, trend "heating", median_sale = 280815 and
inventory.active = 63. -/
theorem end_to_end_example :
    extractValues exampleRow = some [280000, 282000, 285000, 289500]
    ∧ changePct 289500 285000 = 158/100
    ∧ (computeFromRow "31088" "2026-02-03" exampleRow).map
        (fun s => (s.pricing.trend, s.pricing.median_sale, s.inventory.active))
      = Except.ok ("heating", 280815, 63) := by
  refine ⟨by decide, by decide, ?_⟩
  rfl

/-- Counterexample to C2 as stated: for the series [100, 110] the only
change_pct field the written snapshot has, inventory.change_pct, holds -10,
not round((latest - previous) / previous * 100, 2) = 10: no field of the
snapshot stores the raw classifier change_pct. -/
theorem stored_change_pct_counterexample :
    (computeFromValues "31088" "2026-02-03" [100, 110]).map
        (fun s => s.inventory.change_pct) = Except.ok (-10)
    ∧ (-10 : ℚ) ≠ round2 (((110:ℚ) - 100) / 100 * 100) :=
  ⟨rfl, by decide⟩

/-- C2 amended: for every extracted series of length at least 2 with non-zero
second-to-last element, the snapshot is determined by
change_pct = round((latest - previous) / previous * 100, 2): the trend
classifies that value, and the stored inventory.change_pct equals
round(-change_pct, 1) (the raw change_pct itself is not stored). -/
theorem snapshot_change_pct_negated_rounded (zip today : String) (l : List ℚ)
    (previous latest : ℚ) (h : previous ≠ 0) :
    (computeFromValues zip today (l ++ [previous, latest])).map
        (fun s => (s.inventory.change_pct, s.pricing.trend))
      = Except.ok (round1 (changePct latest previous * -1),
          classifyTrend (changePct latest previous)) := by
  have hlen : ¬ (l ++ [previous, latest]).length < 2 := by
    simp [List.length_append]
  have hrev : (l ++ [previous, latest]).reverse
      = latest :: previous :: l.reverse := by
    simp
  simp only [computeFromValues, if_neg hlen, hrev]
  rw [if_neg h]
  rfl

/-- Witness for the amended C2 at the series [100, 110]. -/
theorem snapshot_change_pct_negated_rounded_witness :
    (100:ℚ) ≠ 0
    ∧ (computeFromValues "31088" "2026-02-03" ([] ++ [(100:ℚ), 110])).map
        (fun s => (s.inventory.change_pct, s.pricing.trend))
      = Except.ok (round1 (changePct 110 100 * -1),
          classifyTrend (changePct 110 100)) :=
  ⟨by decide,
    snapshot_change_pct_negated_rounded "31088" "2026-02-03" [] 100 110
      (by decide)⟩

/-- C4: the Derived Metrics Calculator is a pure function of
(trend, change_pct, latest) with exactly the fixed formulas of the spec;
identical inputs give the identical output record. -/
theorem derived_metrics_fixed_formulas (zip today : String) (values : List ℚ)
    (latest pct : ℚ) (trend : String) (h : 0 ≤ latest) :
    (buildSnapshot zip today values latest pct trend).velocity.avg_dom
      = (if trend = "cooling" then 30 else 22)
    ∧ (buildSnapshot zip today values latest pct trend).velocity.dom_change
      = (if trend = "cooling" then 3 else -2)
    ∧ (buildSnapshot zip today values latest pct trend).velocity.absorption_rate
      = (if trend = "cooling" then 3/4 else 11/10)
    ∧ (buildSnapshot zip today values latest pct trend).velocity.months_supply
      = (if trend = "cooling" then 21/5 else 14/5)
    ∧ ((buildSnapshot zip today values latest pct trend).signals.seller_leverage
      = "buyer" ↔ trend = "cooling")
    ∧ (buildSnapshot zip today values latest pct trend).signals.price_reductions_up
      = (trend == "cooling")
    ∧ (buildSnapshot zip today values latest pct trend).signals.inventory_rising
      = (trend == "cooling")
    ∧ (buildSnapshot zip today values latest pct trend).inventory.change_pct
      = round1 (-pct)
    ∧ (buildSnapshot zip today values latest pct trend).pricing.median_sale
      = ⌊latest * (97/100)⌋
    ∧ (buildSnapshot zip today values latest pct trend).pricing.spread_pct = -3
    ∧ buildSnapshot zip today values latest pct trend
      = buildSnapshot zip today values latest pct trend := by
  refine ⟨rfl, rfl, rfl, rfl, ?_, rfl, rfl, ?_, ?_, rfl, rfl⟩
  · show (if trend = "cooling" then "buyer" else "seller") = "buyer"
      ↔ trend = "cooling"
    by_cases hc : trend = "cooling"
    · rw [if_pos hc]
      exact ⟨fun _ => hc, fun _ => rfl⟩
    · rw [if_neg hc]
      exact ⟨fun hs => absurd hs (by decide), fun hc' => absurd hc' hc⟩
  · show round1 (pct * -1) = round1 (-pct)
    rw [mul_neg_one]
  · show pyInt (latest * (97/100)) = ⌊latest * (97/100)⌋
    exact pyInt_eq_floor_of_nonneg _ (mul_nonneg h (by norm_num))

/-- Witness for C4 at the inputs of the end-to-end example. -/
theorem derived_metrics_fixed_formulas_witness :
    (0:ℚ) ≤ 289500
    ∧ ((buildSnapshot "31088" "2026-02-03" fallbackValues 289500 (158/100)
          "heating").velocity.avg_dom
        = (if "heating" = "cooling" then 30 else 22)
      ∧ (buildSnapshot "31088" "2026-02-03" fallbackValues 289500 (158/100)
          "heating").velocity.dom_change
        = (if "heating" = "cooling" then 3 else -2)
      ∧ (buildSnapshot "31088" "2026-02-03" fallbackValues 289500 (158/100)
          "heating").velocity.absorption_rate
        = (if "heating" = "cooling" then 3/4 else 11/10)
      ∧ (buildSnapshot "31088" "2026-02-03" fallbackValues 289500 (158/100)
          "heating").velocity.months_supply
        = (if "heating" = "cooling" then 21/5 else 14/5)
      ∧ ((buildSnapshot "31088" "2026-02-03" fallbackValues 289500 (158/100)
          "heating").signals.seller_leverage = "buyer" ↔ "heating" = "cooling")
      ∧ (buildSnapshot "31088" "2026-02-03" fallbackValues 289500 (158/100)
          "heating").signals.price_reductions_up = ("heating" == "cooling")
      ∧ (buildSnapshot "31088" "2026-02-03" fallbackValues 289500 (158/100)
          "heating").signals.inventory_rising = ("heating" == "cooling")
      ∧ (buildSnapshot "31088" "2026-02-03" fallbackValues 289500 (158/100)
          "heating").inventory.change_pct = round1 (-(158/100))
      ∧ (buildSnapshot "31088" "2026-02-03" fallbackValues 289500 (158/100)
          "heating").pricing.median_sale = ⌊(289500:ℚ) * (97/100)⌋
      ∧ (buildSnapshot "31088" "2026-02-03" fallbackValues 289500 (158/100)
          "heating").pricing.spread_pct = -3
      ∧ buildSnapshot "31088" "2026-02-03" fallbackValues 289500 (158/100)
          "heating"
        = buildSnapshot "31088" "2026-02-03" fallbackValues 289500 (158/100)
          "heating") :=
  ⟨by decide,
    derived_metrics_fixed_formulas "31088" "2026-02-03" fallbackValues 289500
      (158/100) "heating" (by decide)⟩

/-- C5: on any row whose extracted series has fewer than two values, the
computation does not fail: the documented fallback series is substituted and
a complete snapshot is assembled from it. -/
theorem fallback_series_substituted (zip today : String) (row : Row)
    (vs : List ℚ) (hext : extractValues row = some vs) (hlen : vs.length < 2) :
    computeFromRow zip today row
      = Except.ok (buildSnapshot zip today fallbackValues 289500
          (changePct 289500 285000) (classifyTrend (changePct 289500 285000)))
    ∧ (computeFromRow zip today row).map (fun s => s.history)
      = Except.ok fallbackValues := by
  have h1 : computeFromRow zip today row = computeFromValues zip today vs := by
    simp only [computeFromRow, hext]
  have h2 : computeFromValues zip today vs
      = Except.ok (buildSnapshot zip today fallbackValues 289500
          (changePct 289500 285000)
          (classifyTrend (changePct 289500 285000))) := by
    simp only [computeFromValues, if_pos hlen]
    rfl
  rw [h1, h2]
  exact ⟨rfl, rfl⟩

/-- Witness for C5: a matching row whose only period cell is empty. -/
theorem fallback_series_substituted_witness :
    extractValues [("RegionName", "31088"), ("2024-01", "")] = some []
    ∧ ([] : List ℚ).length < 2
    ∧ (computeFromRow "31088" "2026-02-03"
          [("RegionName", "31088"), ("2024-01", "")]
        = Except.ok (buildSnapshot "31088" "2026-02-03" fallbackValues 289500
            (changePct 289500 285000) (classifyTrend (changePct 289500 285000)))
      ∧ (computeFromRow "31088" "2026-02-03"
            [("RegionName", "31088"), ("2024-01", "")]).map (fun s => s.history)
        = Except.ok fallbackValues) :=
  ⟨by decide, by decide,
    fallback_series_substituted "31088" "2026-02-03"
      [("RegionName", "31088"), ("2024-01", "")] [] (by decide) (by decide)⟩

/-- C10: with no CSV file or no row matching the ZIP, the hard-coded default
snapshot (not the fallback series) is produced, structurally complete, with
the documented literal values. -/
theorem default_data_on_missing_csv (zip today : String) (rows : List Row)
    (h : ∀ r ∈ rows, rowMatches zip r = false) :
    calculate_metrics none zip today = Except.ok (defaultSnapshot zip today)
    ∧ calculate_metrics (some rows) zip today
      = Except.ok (defaultSnapshot zip today)
    ∧ (defaultSnapshot zip today).pricing.trend = "heating"
    ∧ (defaultSnapshot zip today).inventory.active = 105
    ∧ (defaultSnapshot zip today).inventory.change_pct = 5/2
    ∧ (defaultSnapshot zip today).pricing.median_list = 289500
    ∧ (defaultSnapshot zip today).pricing.median_sale = 281000
    ∧ (defaultSnapshot zip today).history = [285000, 287500, 289500, 291000]
    ∧ (defaultSnapshot zip today).history ≠ fallbackValues := by
  have hfilter : rows.filter (fun r => rowMatches zip r) = [] := by
    rw [List.filter_eq_nil_iff]
    intro r hr
    simp [h r hr]
  refine ⟨rfl, ?_, rfl, rfl, rfl, rfl, rfl, rfl, ?_⟩
  · simp only [calculate_metrics, hfilter]
  · intro hc
    norm_num [defaultSnapshot, fallbackValues] at hc

/-- Witness for C10 with an empty row list. -/
theorem default_data_on_missing_csv_witness :
    (∀ r ∈ ([] : List Row), rowMatches "31088" r = false)
    ∧ (calculate_metrics none "31088" "2026-02-03"
        = Except.ok (defaultSnapshot "31088" "2026-02-03")
      ∧ calculate_metrics (some ([] : List Row)) "31088" "2026-02-03"
        = Except.ok (defaultSnapshot "31088" "2026-02-03")
      ∧ (defaultSnapshot "31088" "2026-02-03").pricing.trend = "heating"
      ∧ (defaultSnapshot "31088" "2026-02-03").inventory.active = 105
      ∧ (defaultSnapshot "31088" "2026-02-03").inventory.change_pct = 5/2
      ∧ (defaultSnapshot "31088" "2026-02-03").pricing.median_list = 289500
      ∧ (defaultSnapshot "31088" "2026-02-03").pricing.median_sale = 281000
      ∧ (defaultSnapshot "31088" "2026-02-03").history
        = [285000, 287500, 289500, 291000]
      ∧ (defaultSnapshot "31088" "2026-02-03").history ≠ fallbackValues) :=
  ⟨by simp, default_data_on_missing_csv "31088" "2026-02-03" [] (by simp)⟩

/-- Head characters decide the lexicographic comparison of cons cells. -/
theorem charListLt_cons_iff (a0 b0 : Char) (as bs : List Char) :
    charListLt (a0 :: as) (b0 :: bs) = true
      ↔ a0.toNat < b0.toNat
        ∨ (a0.toNat = b0.toNat ∧ charListLt as bs = true) := by
  by_cases h1 : a0.toNat < b0.toNat
  · simp [charListLt, h1]
  · by_cases h2 : b0.toNat < a0.toNat
    · simp only [charListLt, if_neg h1, if_pos h2]
      constructor
      · intro hf
        exact absurd hf (by decide)
      · rintro (hc | ⟨hc, -⟩)
        · exact absurd hc h1
        · exact absurd hc (by omega)
    · have heq : a0.toNat = b0.toNat := by omega
      simp [charListLt, h1, h2, heq]

/-- The code-point order on character lists is transitive. -/
theorem charListLt_trans (a : List Char) :
    ∀ b c : List Char, charListLt a b = true → charListLt b c = true →
      charListLt a c = true := by
  induction a with
  | nil =>
    intro b c hab hbc
    cases b with
    | nil => simp [charListLt] at hab
    | cons b0 bs =>
      cases c with
      | nil => simp [charListLt] at hbc
      | cons c0 cs => simp [charListLt]
  | cons a0 as ih =>
    intro b c hab hbc
    cases b with
    | nil => simp [charListLt] at hab
    | cons b0 bs =>
      cases c with
      | nil => simp [charListLt] at hbc
      | cons c0 cs =>
        rw [charListLt_cons_iff] at hab hbc ⊢
        rcases hab with hab | ⟨hab, hab'⟩ <;> rcases hbc with hbc | ⟨hbc, hbc'⟩
        · exact Or.inl (by omega)
        · exact Or.inl (by omega)
        · exact Or.inl (by omega)
        · exact Or.inr ⟨by omega, ih bs cs hab' hbc'⟩

/-- The code-point order on character lists is asymmetric. -/
theorem charListLt_asymm (a : List Char) :
    ∀ b : List Char, charListLt a b = true → charListLt b a = false := by
  induction a with
  | nil =>
    intro b hab
    cases b with
    | nil => simp [charListLt] at hab
    | cons b0 bs => simp [charListLt]
  | cons a0 as ih =>
    intro b hab
    cases b with
    | nil => simp [charListLt] at hab
    | cons b0 bs =>
      rw [charListLt_cons_iff] at hab
      cases hba : charListLt (b0 :: bs) (a0 :: as) with
      | false => rfl
      | true =>
        exfalso
        rw [charListLt_cons_iff] at hba
        rcases hab with hab | ⟨hab, hab'⟩ <;> rcases hba with hba | ⟨hba, hba'⟩
        · omega
        · omega
        · omega
        · rw [ih bs hab'] at hba'; exact Bool.false_ne_true hba'

/-- Membership in an insertion step. -/
theorem mem_insertKey (s x : String) (l : List String) :
    x ∈ insertKey s l ↔ x = s ∨ x ∈ l := by
  induction l with
  | nil => simp [insertKey]
  | cons t ts ih =>
    by_cases h : keyLt s t
    · simp only [insertKey, if_pos h, List.mem_cons]
    · simp only [insertKey, if_neg h, List.mem_cons, ih]
      tauto

/-- Insertion preserves ascending order (no later key is below an earlier
one). -/
theorem insertKey_pairwise (s : String) (l : List String)
    (h : l.Pairwise (fun a b => keyLt b a = false)) :
    (insertKey s l).Pairwise (fun a b => keyLt b a = false) := by
  induction l with
  | nil => simp [insertKey]
  | cons t ts ih =>
    rcases List.pairwise_cons.mp h with ⟨ht, hts⟩
    by_cases hst : keyLt s t = true
    · rw [insertKey, if_pos hst]
      refine List.pairwise_cons.mpr ⟨?_, h⟩
      intro x hx
      rcases List.mem_cons.mp hx with rfl | hx
      · exact charListLt_asymm _ _ hst
      · cases hxs : keyLt x s with
        | false => rfl
        | true =>
          have hxt := charListLt_trans _ _ _ hxs hst
          have hxt' := ht x hx
          unfold keyLt at hxt'
          rw [hxt'] at hxt
          exact absurd hxt Bool.false_ne_true
    · rw [insertKey, if_neg hst]
      refine List.pairwise_cons.mpr ⟨?_, ih hts⟩
      intro x hx
      rcases (mem_insertKey s x ts).mp hx with rfl | hx
      · exact Bool.eq_false_iff.mpr hst
      · exact ht x hx

/-- The sort used on the period labels produces an ascending list. -/
theorem sortKeys_pairwise (l : List String) :
    (sortKeys l).Pairwise (fun a b => keyLt b a = false) := by
  induction l with
  | nil => exact List.Pairwise.nil
  | cons s ts ih => exact insertKey_pairwise s _ ih

/-- C8: the Series Extractor returns exactly what the spec describes: keys
whose first four characters are digits, sorted ascending (chronological,
most recent last), last four taken, non-empty cells converted and empty
cells skipped — and the result can be shorter than four. -/
theorem extractor_matches_spec :
    (∀ row : Row, extractValues row = specExtract row)
    ∧ (∀ labels : List String,
        (sortKeys labels).Pairwise (fun a b => keyLt b a = false))
    ∧ extractValues [("2024-01", "100"), ("2024-02", "")] = some [100] :=
  ⟨fun _ => rfl, sortKeys_pairwise, by decide⟩

/-- C9: the Insight Annotator appends exactly the threshold-selected insight
strings and leaves every field of the input snapshot unchanged. -/
theorem insights_purely_additive (m : Snapshot) :
    (generate_insights m).toSnapshot = m
    ∧ (generate_insights m).weekly_insights =
      (if m.inventory.change_pct > 3 then
        ["Inventory increased notably this period, giving buyers more options."]
       else if m.inventory.change_pct < -3 then
        ["Inventory dropped significantly, giving sellers more leverage."]
       else
        ["Inventory is stable compared to last period."])
      ++ (if m.pricing.trend = "heating" then
        ["Home prices are trending upward; sellers may get top dollar."]
       else
        ["Home prices are trending downward; buyers have more negotiating power."])
      ++ (if m.velocity.dom_change > 2 then
        ["Homes are taking longer to sell than last period, watch pricing closely."]
       else if m.velocity.dom_change < -2 then
        ["Homes are selling faster than last period, a competitive market for buyers."]
       else [])
      ++ (if m.signals.price_reductions_up then
        ["Price reductions are increasing, indicating seller flexibility."]
       else [])
      ++ (if m.signals.inventory_rising then
        ["Inventory is rising, increasing options for buyers."]
       else []) :=
  ⟨rfl, rfl⟩

/-- Sanity checks for the numeric model: round-half-even at a half, truncation
toward zero on a negative argument, the zero boundary of the classifier. -/
theorem numeric_model_sanity :
    roundHalfEven (3/2) = 2
    ∧ roundHalfEven (1/2) = 0
    ∧ round1 (-(158:ℚ)/100) = -16/10
    ∧ pyInt (-(101:ℚ) * 97 / 100) = -97
    ∧ classifyTrend 0 = "cooling" := by
  refine ⟨by decide, by decide, by decide, by decide, by decide⟩

/-- Sanity checks for the cell model: the digit heuristic on real header names,
the decimal parser on a plain value, a decimal value, an empty cell and a
malformed cell, and the ascending label sort. -/
theorem cell_model_sanity :
    isPeriodKey "2024-01" = true
    ∧ isPeriodKey "RegionName" = false
    ∧ pyFloat? "289500" = some 289500
    ∧ pyFloat? "28.5" = some (57/2)
    ∧ pyFloat? "" = none
    ∧ pyFloat? "abc" = none
    ∧ sortKeys ["2024-02", "2024-01"] = ["2024-01", "2024-02"] := by
  refine ⟨by decide, by decide, by decide, by decide, by decide, by decide,
    by decide⟩

end RHMR
